import Mathlib

/-!
Verification of the ClassQuiz box-controller game core
(`classquiz/routers/box_controller/embedded.py` and `classquiz/db/models.py`)
against its natural-language specification.

The Python code is shallowly embedded: the redis store becomes a record of
association lists keyed by the exact key strings the source builds, handlers
become pure functions from inputs and store state to a result record carrying
the new state, the emitted socket events, the messages sent back over the
websocket and the control-flow outcome (normal return or a raised Python
exception). Machine-level details that the claims do not touch (float
rounding of `total_seconds`, ISO datetime strings) are modelled by integer
millisecond timestamps.
-/

namespace ClassQuiz

/-! ## Data model (from `classquiz/db/models.py`) -/

/-- `QuizQuestionType` enum from `models.py`. -/
inductive QuizQuestionType
  | ABCD
  | RANGE
  | VOTING
  | SLIDE
  | TEXT
  | ORDER
deriving DecidableEq

/-- `ABCDQuizAnswer` pydantic model. -/
structure ABCDQuizAnswer where
  right : Bool
  answer : String
  color : Option String := none
deriving DecidableEq

/-- `RangeQuizAnswer` pydantic model. -/
structure RangeQuizAnswer where
  min : Int
  max : Int
  min_correct : Int
  max_correct : Int
deriving DecidableEq

/-- `VotingQuizAnswer` pydantic model (also used for ORDER questions). -/
structure VotingQuizAnswer where
  answer : String
  image : Option String := none
  color : Option String := none
deriving DecidableEq

/-- `TextQuizAnswer` pydantic model. -/
structure TextQuizAnswer where
  answer : String
  case_sensitive : Bool
deriving DecidableEq

/-- The `answers` union of `QuizQuestion`:
`list[ABCDQuizAnswer] | RangeQuizAnswer | list[TextQuizAnswer] | list[VotingQuizAnswer] | str`. -/
inductive AnswersPayload
  | abcd (l : List ABCDQuizAnswer)
  | range (r : RangeQuizAnswer)
  | text (l : List TextQuizAnswer)
  | voting (l : List VotingQuizAnswer)
  | slide (s : String)
deriving DecidableEq

/-- `QuizQuestion` pydantic model. The source stores `time` (seconds) as a
string converted with `int(float(question.time))` at use; it is modelled
directly by its integer value. -/
structure QuizQuestion where
  question : String
  time : Int
  type : Option QuizQuestionType := some QuizQuestionType.ABCD
  answers : AnswersPayload
  image : Option String := none
deriving DecidableEq

/-- The `answers_not_none_if_abcd_type` validator of `QuizQuestion`: which
payload shapes survive parsing for each question type. The validator indexes
`v[0]` for the list types and for SLIDE strings, so those must be non-empty;
a `None` type is not checked. -/
def answersMatchType : Option QuizQuestionType → AnswersPayload → Bool
  | some QuizQuestionType.ABCD, AnswersPayload.abcd (_ :: _) => true
  | some QuizQuestionType.RANGE, AnswersPayload.range _ => true
  | some QuizQuestionType.VOTING, AnswersPayload.voting (_ :: _) => true
  | some QuizQuestionType.TEXT, AnswersPayload.text (_ :: _) => true
  | some QuizQuestionType.ORDER, AnswersPayload.voting (_ :: _) => true
  | some QuizQuestionType.SLIDE, AnswersPayload.slide s => !(s == "")
  | none, _ => true
  | _, _ => false

/-- The fields of the `PlayGame` pydantic model read by the embedded
controller (`questions`, `started`, `current_question`, `question_show`). -/
structure PlayGame where
  questions : List QuizQuestion
  started : Bool := false
  current_question : Int := -1
  question_show : Bool := false
deriving DecidableEq

/-- `GamePlayer` pydantic model. -/
structure GamePlayer where
  username : String
  sid : Option String := none
deriving DecidableEq

/-- `AnswerData` pydantic model; `time_taken` (float milliseconds in the
source) is modelled as an integer. -/
structure AnswerData where
  username : String
  answer : String
  right : Bool
  time_taken : Int
  score : Int
deriving DecidableEq

/-- `AnswerDataList` pydantic model (a top-level list wrapper). -/
structure AnswerDataList where
  root : List AnswerData
deriving DecidableEq

/-! ## Python runtime outcomes -/

/-- The Python exceptions the embedded handlers can raise or catch. -/
inductive PyExc
  | keyError
  | indexError
  | typeError
  | attributeError
  | valueError
  | validationError
  | httpException (status : Nat) (detail : String)
deriving DecidableEq

/-- Control-flow outcome of a handler body: a normal `return` (the source
functions return `None`) or an escaping exception. -/
inductive Outcome
  | ret
  | raised (e : PyExc)
deriving DecidableEq

/-- Socket.io events emitted by the embedded controller. -/
inductive GEvent
  | everyoneAnswered
  | playerJoined (username : Option String) (room : String)
deriving DecidableEq

/-! ## The redis store -/

/-- Lookup in an association list (first binding wins, as in a redis
keyspace where keys are unique). -/
def alGet {α : Type} : List (String × α) → String → Option α
  | [], _ => none
  | (k, v) :: t, k2 => if k == k2 then some v else alGet t k2

/-- Insert or overwrite a binding in an association list. -/
def alSet {α : Type} : List (String × α) → String → α → List (String × α)
  | [], k2, v2 => [(k2, v2)]
  | (k, v) :: t, k2, v2 => if k == k2 then (k2, v2) :: t else (k, v) :: alSet t k2 v2

/-- The slice of the redis keyspace touched by the embedded controller.
Values are stored in parsed form (serialisation round-trips through
pydantic `json`/`parse_raw` are modelled as the identity):
* `strings`: `game:cqc:code:{code}`, `game:cqc:player:{player_id}` and
  `game_session:{game_pin}:players:{name}` string keys;
* `games`: `game:{game_pin}` keys holding a serialized `PlayGame`;
* `times`: `game:{game_pin}:current_time` ISO datetime keys, as integer
  millisecond timestamps;
* `hashes`: `game_session:{game_pin}:player_scores` redis hashes;
* `answerSets`: `game_session:{game_pin}:{question_index}` keys holding a
  serialized `AnswerDataList`;
* `sets`: `game_session:{game_pin}:players` redis sets of serialized
  `GamePlayer` members, kept as duplicate-free lists. -/
structure Redis where
  strings : List (String × String) := []
  games : List (String × PlayGame) := []
  times : List (String × Int) := []
  hashes : List (String × List (String × Int)) := []
  answerSets : List (String × AnswerDataList) := []
  sets : List (String × List GamePlayer) := []
deriving DecidableEq

/-- `HINCRBY key field incr`: increment a hash field, treating a missing
field as 0. -/
def hincrby (r : Redis) (key field : String) (incr : Int) : Redis :=
  let h := (alGet r.hashes key).getD []
  { r with hashes := alSet r.hashes key (alSet h field (((alGet h field).getD 0) + incr)) }

/-- `HGET key field` read out as an integer, 0 when absent. -/
def hget (r : Redis) (key field : String) : Int :=
  (alGet ((alGet r.hashes key).getD []) field).getD 0

/-- `SADD key member` on a set of serialized `GamePlayer` members:
adding an already-present member leaves the set unchanged. -/
def sadd (r : Redis) (key : String) (p : GamePlayer) : Redis :=
  let s := (alGet r.sets key).getD []
  { r with sets := alSet r.sets key (if p ∈ s then s else s ++ [p]) }

/-- `SCARD key` of a `game_session:{pin}:players` set. -/
def scard (r : Redis) (key : String) : Nat :=
  ((alGet r.sets key).getD []).length

/-! ## Python semantics helpers -/

/-- Python list indexing `l[i]` with an `int` index: non-negative indices in
range, negative indices counted from the end, `none` for an `IndexError`. -/
def pyIdx {α : Type} (l : List α) (i : Int) : Option α :=
  if 0 ≤ i ∧ i < (l.length : Int) then l.get? i.toNat
  else if -(l.length : Int) ≤ i ∧ i < 0 then l.get? (l.length - (-i).toNat)
  else none

/-- Python `str.split(sep)` for a one-character separator: splits at every
occurrence, keeping empty pieces (`"".split(sep)` is `[""]`). -/
def pySplit (sep : Char) : List Char → List (List Char)
  | [] => [[]]
  | c :: t =>
    if c == sep then [] :: pySplit sep t
    else
      match pySplit sep t with
      | [] => [[c]]
      | h :: rest => (c :: h) :: rest

/-- `game_id.split(":")` from the websocket endpoint, on `String`. -/
def pySplitColon (s : String) : List String :=
  (pySplit (':') s.data).map String.mk

/-- One hex digit of Python `bytes.hex()`: lowercase `0-9a-f`. -/
def hexDigit (n : Nat) : Char :=
  (("0123456789abcdef").data.get? n).getD ('0')

/-- The two hex digits of one byte. -/
def byteToHexChars (b : Nat) : List Char :=
  [hexDigit (b / 16), hexDigit (b % 16)]

/-- `os.urandom(n).hex()`: the lowercase hex encoding of a byte string. -/
def bytesToHexStr (bs : List Nat) : String :=
  String.mk (bs.flatMap byteToHexChars)

instance : DecidableEq (Except PyExc String) := fun a b =>
  match a, b with
  | Except.ok x, Except.ok y =>
    if h : x = y then isTrue (congrArg Except.ok h)
    else isFalse fun hh => h (Except.ok.inj hh)
  | Except.error x, Except.error y =>
    if h : x = y then isTrue (congrArg Except.error h)
    else isFalse fun hh => h (Except.error.inj hh)
  | Except.ok _, Except.error _ => isFalse fun hh => Except.noConfusion hh
  | Except.error _, Except.ok _ => isFalse fun hh => Except.noConfusion hh

/-! ## `join_game` (POST /join, `embedded.py` lines 27-43) -/

/-- Result of the `/join` route: new store state and either the
`JoinGameResponse.id` payload or a raised exception. -/
structure JoinResult where
  redis : Redis
  response : Except PyExc String
deriving DecidableEq

/-- `join_game` from `embedded.py`. The five random bytes drawn by
`os.urandom(5)` are passed as the `randomBytes` argument. A dangling
`game:cqc:code` key (the code resolves but `game:{pin}` is absent) makes
`PlayGame.parse_raw(None)` raise a `TypeError`. -/
def join_game (code name : String) (randomBytes : List Nat) (r : Redis) : JoinResult :=
  match alGet r.strings (("game:cqc:code:") ++ code) with
  | none => ⟨r, Except.error (PyExc.httpException 404 ("Game not found"))⟩
  | some game_pin =>
    match alGet r.games (("game:") ++ game_pin) with
    | none => ⟨r, Except.error PyExc.typeError⟩
    | some game =>
      if game.started then
        ⟨r, Except.error (PyExc.httpException 400 ("Game started already"))⟩
      else if (alGet r.strings (("game_session:") ++ game_pin ++ (":players:") ++ name)).isSome then
        ⟨r, Except.error (PyExc.httpException 409 ("Username already exists"))⟩
      else
        let player_id := bytesToHexStr randomBytes
        ⟨{ r with strings := alSet r.strings (("game:cqc:player:") ++ player_id) name },
          Except.ok (player_id ++ (":") ++ game_pin)⟩

/-! ## `submit_answer_fn` (`embedded.py` lines 50-91) -/

/-- The lookup `question.answers[data_answer].answer` of line 61, for each
payload shape of the `answers` union: list payloads raise `IndexError` when
out of range (never `KeyError`); a RANGE payload is a pydantic model without
`__getitem__`, raising `TypeError`; indexing a SLIDE string yields a
one-character string without an `.answer` attribute, raising
`AttributeError` (or `IndexError` when out of range). -/
def selectedAnswerOf (p : AnswersPayload) (i : Nat) : Except PyExc String :=
  match p with
  | AnswersPayload.abcd l =>
    match l.get? i with
    | some a => Except.ok a.answer
    | none => Except.error PyExc.indexError
  | AnswersPayload.voting l =>
    match l.get? i with
    | some a => Except.ok a.answer
    | none => Except.error PyExc.indexError
  | AnswersPayload.text l =>
    match l.get? i with
    | some a => Except.ok a.answer
    | none => Except.error PyExc.indexError
  | AnswersPayload.range _ => Except.error PyExc.typeError
  | AnswersPayload.slide s =>
    if i < s.length then Except.error PyExc.attributeError
    else Except.error PyExc.indexError

/-- Result of the `answer_right` computation of lines 64-73. -/
inductive RightResult
  | right (b : Bool)
  | unsupported
  | raise (e : PyExc)
deriving DecidableEq

/-- Lines 64-73 of `submit_answer_fn`: ABCD questions scan
`question.answers` for a right answer matching the selected text, VOTING is
never right, every other type (including a `None` type) falls to the
`else: return` branch. The mismatched-payload branches of the ABCD case are
unreachable for validator-conforming data and model the `AttributeError`
raised when an element without a `.right` attribute matches. -/
def answerRightOf (t : Option QuizQuestionType) (p : AnswersPayload) (selected : String) :
    RightResult :=
  match t with
  | some QuizQuestionType.ABCD =>
    match p with
    | AnswersPayload.abcd l => RightResult.right (l.any fun a => a.answer == selected && a.right)
    | AnswersPayload.range _ => RightResult.raise PyExc.attributeError
    | AnswersPayload.voting l =>
      if l.any fun a => a.answer == selected then RightResult.raise PyExc.attributeError
      else RightResult.right false
    | AnswersPayload.text l =>
      if l.any fun a => a.answer == selected then RightResult.raise PyExc.attributeError
      else RightResult.right false
    | AnswersPayload.slide s =>
      if s == "" then RightResult.right false else RightResult.raise PyExc.attributeError
  | some QuizQuestionType.VOTING => RightResult.right false
  | _ => RightResult.unsupported

/-- Modelled from the spec: `set_answer` lives in `classquiz.socket_server`,
which is not under `src/`. Per the spec it appends the `AnswerData` record
to the per-question answer list and rejects a duplicate for a player that
already has a record for this question ("at most one `AnswerRecord` per
(player, question) pair — duplicate submissions for an already-answered
question are rejected, not overwritten"), returning the resulting list. -/
def set_answer (answers : Option AnswerDataList) (data : AnswerData) : AnswerDataList :=
  match answers with
  | none => ⟨[data]⟩
  | some l =>
    if l.root.any fun a => a.username == data.username then l
    else ⟨l.root ++ [data]⟩

/-- Result of one `submit_answer_fn` call: new store state, emitted
socket.io events, and the control-flow outcome. -/
structure SubmitResult where
  redis : Redis
  events : List GEvent
  outcome : Outcome
deriving DecidableEq

/-- Absolute value used for `abs(diff)`. -/
def iabs (i : Int) : Int := if i < 0 then -i else i

/-- `submit_answer_fn` from `embedded.py`. `calculate_score` lives in
`classquiz.socket_server` (not under `src/`) and is passed as an arbitrary
function argument; `now` and the stored `game:{pin}:current_time` value are
integer timestamps and `diff` is their difference in milliseconds.
The `try`/`except KeyError` of lines 60-63 turns only a `KeyError` from the
answer lookup into a silent return; every other exception escapes. -/
def submit_answer_fn (calculate_score : Int → Int → Int) (data_answer : Nat)
    (game_pin player_id : String) (now : Int) (r : Redis) : SubmitResult :=
  match alGet r.games (("game:") ++ game_pin),
      alGet r.strings (("game:cqc:player:") ++ player_id) with
  | none, _ => ⟨r, [], Outcome.raised (PyExc.httpException 404 ("id not existent"))⟩
  | some _, none => ⟨r, [], Outcome.raised (PyExc.httpException 404 ("id not existent"))⟩
  | some game, some username =>
    if !game.question_show then ⟨r, [], Outcome.ret⟩
    else
      match pyIdx game.questions game.current_question with
      | none => ⟨r, [], Outcome.raised PyExc.indexError⟩
      | some question =>
        match alGet r.times (("game:") ++ game_pin ++ (":current_time")) with
        | none => ⟨r, [], Outcome.raised PyExc.typeError⟩
        | some question_time =>
          match selectedAnswerOf question.answers data_answer with
          | Except.error PyExc.keyError => ⟨r, [], Outcome.ret⟩
          | Except.error e => ⟨r, [], Outcome.raised e⟩
          | Except.ok selected_answer =>
            match answerRightOf question.type question.answers selected_answer with
            | RightResult.raise e => ⟨r, [], Outcome.raised e⟩
            | RightResult.unsupported => ⟨r, [], Outcome.ret⟩
            | RightResult.right answer_right =>
              let diff : Int := (question_time - now) * 1000
              let score : Int :=
                if answer_right then calculate_score (iabs diff) question.time else 0
              let r1 := hincrby r (("game_session:") ++ game_pin ++ (":player_scores"))
                username score
              let answer_data : AnswerData :=
                ⟨username, selected_answer, answer_right, iabs diff, score⟩
              let answersKey :=
                ("game_session:") ++ game_pin ++ (":") ++ toString game.current_question
              let answers := set_answer (alGet r1.answerSets answersKey) answer_data
              let r2 := { r1 with answerSets := alSet r1.answerSets answersKey answers }
              let player_count := scard r2 (("game_session:") ++ game_pin ++ (":players"))
              if answers.root.length = player_count then
                ⟨r2, [GEvent.everyoneAnswered], Outcome.ret⟩
              else ⟨r2, [], Outcome.ret⟩

/-! ## Websocket endpoint (`embedded.py` lines 94-153) -/

/-- `button_to_index_map` from `embedded.py` line 106. -/
def button_to_index_map : List (String × Nat) :=
  [(("b"), 0), (("g"), 1), (("y"), 2), (("r"), 3)]

/-- Result of one `ButtonPress` message in the receive loop (lines 140-148):
new store state, socket.io events, error replies sent back over the
websocket, and the outcome. -/
structure ButtonResult where
  redis : Redis
  events : List GEvent
  sent : List String
  outcome : Outcome
deriving DecidableEq

/-- Python `str.lower()` on one character, restricted to ASCII (the button
payloads are single ASCII letters). -/
def pyLowerChar (c : Char) : Char :=
  if 65 ≤ c.toNat ∧ c.toNat ≤ 90 then Char.ofNat (c.toNat + 32) else c

/-- Python `str.lower()` restricted to ASCII strings. -/
def pyLower (s : String) : String := String.mk (s.data.map pyLowerChar)

/-- Lines 140-148 of the websocket receive loop: resolve the pressed button
through `button_to_index_map` (an unknown button gets an `InvalidButton`
error reply and the loop continues) and call `submit_answer_fn`. Nothing is
sent back to the client when `submit_answer_fn` returns. -/
def handleButtonPress (calculate_score : Int → Int → Int) (data : String)
    (game_pin player_id : String) (now : Int) (r : Redis) : ButtonResult :=
  match alGet button_to_index_map (pyLower data) with
  | none => ⟨r, [], [("InvalidButton")], Outcome.ret⟩
  | some answer_index =>
    let s := submit_answer_fn calculate_score answer_index game_pin player_id now r
    ⟨s.redis, s.events, [], s.outcome⟩

/-- Outcome of the connection phase of `websocket_endpoint`
(lines 111-130). -/
inductive ConnectOutcome
  | closedDuplicate (code : Nat)
  | connected (player_id game_pin : String)
  | raised (e : PyExc)
deriving DecidableEq

/-- Result of the connection phase: the `wss_clients` registry (a dict
keyed by the path id; only the keys matter here), store state, events and
outcome. -/
structure ConnectResult where
  clients : List String
  redis : Redis
  events : List GEvent
  outcome : ConnectOutcome
deriving DecidableEq

/-- Lines 111-130 of `websocket_endpoint`: an id already present in
`wss_clients` is closed with `WS_1001_GOING_AWAY` before the connection is
accepted or registered and before any game side effect; otherwise the
connection is accepted, registered, `game_id` is unpacked by
`split(":")` (a `ValueError` escapes if it does not yield exactly two
parts), a `player_joined` event is emitted to the admin room and the player
is added to the `game_session:{pin}:players` set (`GamePlayer` rejects a
`None` username with a `ValidationError`). -/
def wsConnect (id game_id : String) (clients : List String) (r : Redis) : ConnectResult :=
  if id ∈ clients then ⟨clients, r, [], ConnectOutcome.closedDuplicate 1001⟩
  else
    let clients1 := clients ++ [id]
    match pySplitColon game_id with
    | [player_id, game_pin] =>
      let username := alGet r.strings (("game:cqc:player:") ++ player_id)
      let ev := GEvent.playerJoined username (("admin:") ++ game_pin)
      match username with
      | none => ⟨clients1, r, [ev], ConnectOutcome.raised PyExc.validationError⟩
      | some u =>
        ⟨clients1, sadd r (("game_session:") ++ game_pin ++ (":players")) ⟨u, none⟩,
          [ev], ConnectOutcome.connected player_id game_pin⟩
    | _ => ⟨clients1, r, [], ConnectOutcome.raised PyExc.valueError⟩

/-- Result of the `WebSocketDisconnect` handler. -/
structure DisconnectResult where
  clients : List String
  redis : Redis
  events : List GEvent
deriving DecidableEq

/-- Lines 151-153 of `websocket_endpoint`: on disconnect the handler logs
and pops the id from the `wss_clients` dict (`pop(id, None)`); no store key
is touched and no event is emitted. -/
def wsDisconnect (id : String) (clients : List String) (r : Redis) : DisconnectResult :=
  ⟨clients.filter fun c => !(c == id), r, []⟩

/-! ## Sample store states used by concrete evaluations -/

/-- An ABCD question whose first option is the right one. -/
def qAbcd : QuizQuestion :=
  { question := ("q1"), time := 20, type := some QuizQuestionType.ABCD,
    answers := AnswersPayload.abcd [⟨true, ("A"), none⟩, ⟨false, ("B"), none⟩] }

/-- A running game showing `qAbcd` as question 0. -/
def gShown : PlayGame :=
  { questions := [qAbcd], started := true, current_question := 0, question_show := true }

/-- A store with game pin `p` showing `qAbcd`, player id `pid1` named
`alice`, `alice` in the connected-player set, and a question start time. -/
def rBase : Redis :=
  { strings := [(("game:cqc:player:pid1"), ("alice"))],
    games := [(("game:p"), gShown)],
    times := [(("game:p:current_time"), 5)],
    hashes := [],
    answerSets := [],
    sets := [(("game_session:p:players"), [⟨("alice"), none⟩])] }

/-- A constant stand-in for the external `calculate_score`. -/
def csConst : Int → Int → Int := fun _ _ => 100

/-- The same game with the current question hidden (`question_show` false). -/
def gHidden : PlayGame :=
  { questions := [qAbcd], started := true, current_question := 0, question_show := false }

/-- `rBase` with the question hidden. -/
def rHidden : Redis := { rBase with games := [(("game:p"), gHidden)] }

/-- First submission of the correct answer by `alice` on `rBase`. -/
def submit1 : SubmitResult := submit_answer_fn csConst 0 ("p") ("pid1") 3 rBase

/-- A second, duplicate submission by `alice` on the state left by
`submit1`, while the question is still shown. -/
def submit2 : SubmitResult := submit_answer_fn csConst 0 ("p") ("pid1") 4 submit1.redis

/-- Key of the `game_session:{pin}:player_scores` hash. -/
def scoresKeyOf (pin : String) : String :=
  ("game_session:") ++ pin ++ (":player_scores")

/-- Key of the `game_session:{pin}:{q}` answer list. -/
def answersKeyOf (pin : String) (q : Int) : String :=
  ("game_session:") ++ pin ++ (":") ++ toString q

/-- Key of the `game_session:{pin}:players` set. -/
def playersKeyOf (pin : String) : String :=
  ("game_session:") ++ pin ++ (":players")

/-- The answer records stored for question `q` of game `pin`. -/
def recordedAnswers (r : Redis) (pin : String) (q : Int) : List AnswerData :=
  ((alGet r.answerSets (answersKeyOf pin q)).getD ⟨[]⟩).root

/-! ## Claims -/

/-- C1: the claim states that a submission for an already-answered
(player, question) pair is rejected as a duplicate and the running score
total is incremented at most once. The code evaluated at the failing input
shows otherwise: after `alice` submits the correct answer twice while the
question is shown, her running total in `game_session:p:player_scores` is
200 (the per-submission score of 100 was added on both calls, since the
`hincrby` of line 78 runs unconditionally with no duplicate check), even
though only one answer record is stored and the duplicate call returns
normally rather than being rejected. -/
theorem C1_duplicate_submission_scores_twice :
    hget submit2.redis (("game_session:p:player_scores")) (("alice")) = 200 ∧
    (recordedAnswers submit2.redis (("p")) 0).length = 1 ∧
    submit2.outcome = Outcome.ret := by decide

/-- C2 (as stated, refuted at a concrete input): a button press while
`question_show` is false is dropped with no distinguishable rejection: the
handler sends nothing back to the submitter (`sent = []`), emits no event,
writes no score or answer record (the store is unchanged), and returns
normally — exactly the same observable outcome as any other silent return. -/
theorem C2_counterexample :
    handleButtonPress csConst (("b")) (("p")) (("pid1")) 3 rHidden =
      ⟨rHidden, [], [], Outcome.ret⟩ := by decide

/-- C2 (amended): whenever the game and player id resolve and
`question_show` is false, `submit_answer_fn` returns `None` leaving the
store untouched and emitting nothing: the late submission writes no score
and no answer record, but it is silently dropped — no rejection outcome is
returned to the submitter. -/
theorem C2_amended_late_submission_silently_dropped
    (cs : Int → Int → Int) (da : Nat) (pin pid : String) (now : Int) (r : Redis)
    (g : PlayGame) (u : String)
    (hg : alGet r.games (("game:") ++ pin) = some g)
    (hu : alGet r.strings (("game:cqc:player:") ++ pid) = some u)
    (hshow : g.question_show = false) :
    submit_answer_fn cs da pin pid now r = ⟨r, [], Outcome.ret⟩ := by
  simp [submit_answer_fn, hg, hu, hshow]

/-- Witness for C2: the amended theorem applied at a concrete late
submission. -/
theorem C2_amended_witness :
    submit_answer_fn csConst 0 (("p")) (("pid1")) 3 rHidden = ⟨rHidden, [], Outcome.ret⟩ :=
  C2_amended_late_submission_silently_dropped csConst 0 (("p")) (("pid1")) 3 rHidden
    gHidden (("alice")) (by decide) (by decide) (by decide)

/-- On the processed path, `submit_answer_fn` emits `everyone_answered`
exactly when the answer list returned by `set_answer` has as many entries
as the connected-player set — with no further condition, in particular no
once-only marker. -/
theorem submit_events_characterization
    (cs : Int → Int → Int) (da : Nat) (pin pid : String) (now : Int)
    (r : Redis) (g : PlayGame) (u : String) (q : QuizQuestion) (t : Int)
    (sel : String) (b : Bool)
    (hg : alGet r.games (("game:") ++ pin) = some g)
    (hu : alGet r.strings (("game:cqc:player:") ++ pid) = some u)
    (hshow : g.question_show = true)
    (hq : pyIdx g.questions g.current_question = some q)
    (ht : alGet r.times (("game:") ++ pin ++ (":current_time")) = some t)
    (hsel : selectedAnswerOf q.answers da = Except.ok sel)
    (hright : answerRightOf q.type q.answers sel = RightResult.right b) :
    (submit_answer_fn cs da pin pid now r).events =
      (if (set_answer (alGet r.answerSets (answersKeyOf pin g.current_question))
            ⟨u, sel, b, iabs ((t - now) * 1000),
              if b then cs (iabs ((t - now) * 1000)) q.time else 0⟩).root.length
          = scard r (playersKeyOf pin)
        then [GEvent.everyoneAnswered] else []) := by
  cases b <;>
    · simp only [submit_answer_fn, hg, hu, hshow, hq, ht, hsel, hright,
        Bool.not_true, Bool.false_eq_true, if_false, if_true,
        hincrby, scard, answersKeyOf, playersKeyOf]
      split <;> rfl

/-- C3 (as stated, refuted at a concrete input): with a single connected
player, the first accepted submission makes the recorded-answer count equal
the connected-player count and `everyone_answered` is emitted; a duplicate
submission by the same player while the question is still shown observes
the same equality and the event is emitted a second time for the same game
and question. -/
theorem C3_counterexample :
    submit1.events = [GEvent.everyoneAnswered] ∧
    submit2.events = [GEvent.everyoneAnswered] := by decide

/-- C3 (amended): after each accepted submission the code compares the
count of recorded answers for the current question with the
connected-player count and emits `everyone_answered` whenever they are
equal: the event fires on the submission that first makes the counts equal,
and fires again on any later duplicate submission that leaves them equal —
there is no once-only suppression. Stated on the processed path: if the
submitting player already has a record and the counts are already equal the
call emits the event (again), and if the player is new and the count
reaches the player count with this record the call emits the event. -/
theorem C3_amended_emit_whenever_counts_equal
    (cs : Int → Int → Int) (da : Nat) (pin pid : String) (now : Int)
    (r : Redis) (g : PlayGame) (u : String) (q : QuizQuestion) (t : Int)
    (sel : String) (b : Bool)
    (hg : alGet r.games (("game:") ++ pin) = some g)
    (hu : alGet r.strings (("game:cqc:player:") ++ pid) = some u)
    (hshow : g.question_show = true)
    (hq : pyIdx g.questions g.current_question = some q)
    (ht : alGet r.times (("game:") ++ pin ++ (":current_time")) = some t)
    (hsel : selectedAnswerOf q.answers da = Except.ok sel)
    (hright : answerRightOf q.type q.answers sel = RightResult.right b) :
    ((recordedAnswers r pin g.current_question).any (fun a => a.username == u) = true →
        (recordedAnswers r pin g.current_question).length = scard r (playersKeyOf pin) →
        (submit_answer_fn cs da pin pid now r).events = [GEvent.everyoneAnswered]) ∧
    ((recordedAnswers r pin g.current_question).any (fun a => a.username == u) = false →
        (recordedAnswers r pin g.current_question).length + 1 = scard r (playersKeyOf pin) →
        (submit_answer_fn cs da pin pid now r).events = [GEvent.everyoneAnswered]) := by
  rw [submit_events_characterization cs da pin pid now r g u q t sel b
    hg hu hshow hq ht hsel hright]
  unfold recordedAnswers
  constructor
  · intro hdup hlen
    cases halist : alGet r.answerSets (answersKeyOf pin g.current_question) with
    | none => rw [halist] at hdup; simp at hdup
    | some l =>
      rw [halist] at hdup hlen
      simp only [Option.getD_some] at hdup hlen
      simp [set_answer, hdup, hlen]
  · intro hnew hlen
    cases halist : alGet r.answerSets (answersKeyOf pin g.current_question) with
    | none =>
      rw [halist] at hnew hlen
      simp at hlen
      simp only [set_answer]
      rw [if_pos (by simp; omega)]
    | some l =>
      rw [halist] at hnew hlen
      simp only [Option.getD_some] at hnew hlen
      simp [set_answer, hnew, hlen]

/-- Witness for C3: the amended theorem applied at the concrete duplicate
submission of the counterexample state, duplicate branch. -/
theorem C3_amended_witness :
    (submit_answer_fn csConst 0 (("p")) (("pid1")) 4 submit1.redis).events =
      [GEvent.everyoneAnswered] :=
  (C3_amended_emit_whenever_counts_equal csConst 0 (("p")) (("pid1")) 4 submit1.redis
    gShown (("alice")) qAbcd 5 (("A")) true
    (by decide) (by decide) (by decide) (by decide) (by decide) (by decide) (by decide)).1
    (by decide) (by decide)

/-- Reading back the key just written into an association list. -/
theorem alGet_alSet_self {α : Type} (l : List (String × α)) (k : String) (v : α) :
    alGet (alSet l k v) k = some v := by
  induction l with
  | nil => simp [alGet, alSet]
  | cons p t ih =>
    obtain ⟨k1, v1⟩ := p
    by_cases h : (k1 == k) = true
    · simp [alSet, alGet, h]
    · simp [alSet, alGet, h, ih]

/-- A VOTING question for C4. -/
def qVote : QuizQuestion :=
  { question := ("qv"), time := 10, type := some QuizQuestionType.VOTING,
    answers := AnswersPayload.voting [⟨("X"), none, none⟩, ⟨("Y"), none, none⟩] }

/-- A running game showing `qVote`. -/
def gVote : PlayGame :=
  { questions := [qVote], started := true, current_question := 0, question_show := true }

/-- `rBase` with the VOTING game. -/
def rVote : Redis := { rBase with games := [(("game:p"), gVote)] }

/-- C4: on the processed path, if the answer is resolved as not correct —
in particular for every submission to a VOTING question, whatever option is
selected — the stored `AnswerData` record carries `right = false` and
`score = 0`, the running score total of the player is unchanged, and the
result does not depend on the `calculate_score` function at all (it is
invoked only when the answer is correct): for any two scoring functions
`cs` and `cs2` the whole result coincides. -/
theorem C4_incorrect_answers_score_zero
    (cs cs2 : Int → Int → Int) (da : Nat) (pin pid : String) (now : Int)
    (r : Redis) (g : PlayGame) (u : String) (q : QuizQuestion) (t : Int) (sel : String)
    (hg : alGet r.games (("game:") ++ pin) = some g)
    (hu : alGet r.strings (("game:cqc:player:") ++ pid) = some u)
    (hshow : g.question_show = true)
    (hq : pyIdx g.questions g.current_question = some q)
    (ht : alGet r.times (("game:") ++ pin ++ (":current_time")) = some t)
    (hsel : selectedAnswerOf q.answers da = Except.ok sel)
    (hv : q.type = some QuizQuestionType.VOTING ∨
        answerRightOf q.type q.answers sel = RightResult.right false) :
    submit_answer_fn cs da pin pid now r = submit_answer_fn cs2 da pin pid now r ∧
    hget (submit_answer_fn cs da pin pid now r).redis (scoresKeyOf pin) u =
      hget r (scoresKeyOf pin) u ∧
    recordedAnswers (submit_answer_fn cs da pin pid now r).redis pin g.current_question =
      (set_answer (alGet r.answerSets (answersKeyOf pin g.current_question))
        ⟨u, sel, false, iabs ((t - now) * 1000), 0⟩).root := by
  have hright : answerRightOf q.type q.answers sel = RightResult.right false := by
    rcases hv with h | h
    · rw [h]; rfl
    · exact h
  refine ⟨?_, ?_, ?_⟩
  · simp only [submit_answer_fn, hg, hu, hshow, hq, ht, hsel, hright,
      Bool.false_eq_true, if_false, Bool.not_true]
  · simp only [submit_answer_fn, hg, hu, hshow, hq, ht, hsel, hright,
      Bool.false_eq_true, if_false, Bool.not_true]
    split <;> simp [hget, hincrby, alGet_alSet_self, scoresKeyOf]
  · simp only [submit_answer_fn, hg, hu, hshow, hq, ht, hsel, hright,
      Bool.false_eq_true, if_false, Bool.not_true]
    split <;> simp [recordedAnswers, hincrby, alGet_alSet_self, answersKeyOf]

/-- Witness for C4: the theorem applied to a concrete VOTING submission:
the running score total of alice is unchanged by her vote. -/
theorem C4_witness :
    hget (submit_answer_fn csConst 1 (("p")) (("pid1")) 3 rVote).redis
        (scoresKeyOf (("p"))) (("alice")) =
      hget rVote (scoresKeyOf (("p"))) (("alice")) :=
  (C4_incorrect_answers_score_zero csConst (fun _ _ => 7) 1 (("p")) (("pid1")) 3 rVote
    gVote (("alice")) qVote 5 (("Y"))
    (by decide) (by decide) (by decide) (by decide) (by decide) (by decide)
    (Or.inl (by decide))).2.1

/-- A lobby game (not started) reachable through code `123` for C5. -/
def gLobby : PlayGame := { questions := [qAbcd] }

/-- A store holding the lobby game and its join code, with no
`game_session:{pin}:players:{name}` key set. -/
def rLobby : Redis :=
  { strings := [(("game:cqc:code:123"), ("p"))],
    games := [(("game:p"), gLobby)] }

/-- First join of display name alice into the lobby. -/
def join1 : JoinResult := join_game (("123")) (("alice")) [0, 0, 0, 0, 1] rLobby

/-- Second join with the same display name alice, on the state left by the
first join. -/
def join2 : JoinResult := join_game (("123")) (("alice")) [0, 0, 0, 0, 2] join1.redis

/-- C5 (as stated, refuted at a concrete input): two successive join
attempts with the same display name in the same lobby BOTH succeed — the
second is not rejected with a 409 Conflict, because the name-taken check
reads the key `game_session:{pin}:players:{name}`, which this join flow
never writes. -/
theorem C5_counterexample :
    join1.response = Except.ok (("0000000001:p")) ∧
    join2.response = Except.ok (("0000000002:p")) := by decide

/-- C5 (amended): against a consistent store (every resolved join code
points at a stored game, so the `PlayGame.parse_raw(None)` crash is
unreachable), the result of a join request is either a fresh identity
`{player_id}:{game_pin}` with `player_id` the hex encoding of the five
random bytes, or exactly one of: 404 game not found, 400 game started
already, 409 username already exists. The 409 arm requires the
`game_session:{pin}:players:{name}` key to have been set by an external
writer: join itself never writes it, so two successive joins with the same
display name through this endpoint both succeed. -/
theorem C5_amended_join_outcomes (code name : String) (bytes : List Nat) (r : Redis)
    (hc : ∀ pin, alGet r.strings (("game:cqc:code:") ++ code) = some pin →
        (alGet r.games (("game:") ++ pin)).isSome = true) :
    (∃ pin, (join_game code name bytes r).response =
        Except.ok (bytesToHexStr bytes ++ (":") ++ pin)) ∨
    (join_game code name bytes r).response =
      Except.error (PyExc.httpException 404 (("Game not found"))) ∨
    (join_game code name bytes r).response =
      Except.error (PyExc.httpException 400 (("Game started already"))) ∨
    (join_game code name bytes r).response =
      Except.error (PyExc.httpException 409 (("Username already exists"))) := by
  cases hcode : alGet r.strings (("game:cqc:code:") ++ code) with
  | none => right; left; simp [join_game, hcode]
  | some pin =>
    have hg2 := hc pin hcode
    cases hgame : alGet r.games (("game:") ++ pin) with
    | none => rw [hgame] at hg2; simp at hg2
    | some game =>
      by_cases hs : game.started = true
      · right; right; left; simp [join_game, hcode, hgame, hs]
      · cases hn : alGet r.strings (("game_session:") ++ pin ++ (":players:") ++ name) with
        | some v =>
          right; right; right; simp [join_game, hcode, hgame, hs, hn]
        | none =>
          left; exact ⟨pin, by simp [join_game, hcode, hgame, hs, hn]⟩

/-- Witness for C5: the amended theorem applied at the concrete lobby. -/
theorem C5_amended_witness :
    (∃ pin, (join_game (("123")) (("bob")) [1, 2, 3, 4, 5] rLobby).response =
        Except.ok (bytesToHexStr [1, 2, 3, 4, 5] ++ (":") ++ pin)) ∨
    (join_game (("123")) (("bob")) [1, 2, 3, 4, 5] rLobby).response =
      Except.error (PyExc.httpException 404 (("Game not found"))) ∨
    (join_game (("123")) (("bob")) [1, 2, 3, 4, 5] rLobby).response =
      Except.error (PyExc.httpException 400 (("Game started already"))) ∨
    (join_game (("123")) (("bob")) [1, 2, 3, 4, 5] rLobby).response =
      Except.error (PyExc.httpException 409 (("Username already exists"))) :=
  C5_amended_join_outcomes (("123")) (("bob")) [1, 2, 3, 4, 5] rLobby (by
    intro pin h
    have e : alGet rLobby.strings (("game:cqc:code:") ++ ("123")) = some (("p")) := by decide
    rw [e] at h
    injection h with h2
    subst h2
    decide)

/-- C6 (as stated, refuted at a concrete input): when the only registered
connection disconnects, the identity is removed from the registry and the
store (scores, roster) is untouched, but the emitted event list is empty —
no player-left event is broadcast to the room. -/
theorem C6_counterexample :
    (wsDisconnect (("c1")) [("c1")] rBase).events = [] ∧
    (wsDisconnect (("c1")) [("c1")] rBase).clients = [] ∧
    (wsDisconnect (("c1")) [("c1")] rBase).redis = rBase := by decide

/-- C6 (amended): for every disconnect of a registered connection, the
identity is removed from the connection registry and the accumulated score
and roster state of the player are not deleted (the store is unchanged),
but no player-left event is broadcast — the handler only logs and pops the
registry entry. -/
theorem C6_amended_disconnect_removes_without_broadcast
    (id : String) (clients : List String) (r : Redis) :
    id ∉ (wsDisconnect id clients r).clients ∧
    (wsDisconnect id clients r).redis = r ∧
    (wsDisconnect id clients r).events = [] := by
  refine ⟨?_, rfl, rfl⟩
  simp [wsDisconnect]

/-- C7: a second connection attempt for an identity that already has a
live registered connection is closed with the distinguishable
`WS_1001_GOING_AWAY` status before any registration or game side effect:
the registry, store and event list are unchanged, so the existing
connection remains registered and is not evicted. -/
theorem C7_duplicate_connection_rejected (id game_id : String) (clients : List String)
    (r : Redis) (h : id ∈ clients) :
    wsConnect id game_id clients r = ⟨clients, r, [], ConnectOutcome.closedDuplicate 1001⟩ := by
  unfold wsConnect
  rw [if_pos h]

/-- Witness for C7 at a concrete duplicate connection. -/
theorem C7_witness :
    wsConnect (("c1")) (("pid1:p")) [("c1")] rBase =
      ⟨[("c1")], rBase, [], ConnectOutcome.closedDuplicate 1001⟩ :=
  C7_duplicate_connection_rejected (("c1")) (("pid1:p")) [("c1")] rBase (by decide)

/-- A TEXT question for C8. -/
def qText : QuizQuestion :=
  { question := ("qt"), time := 20, type := some QuizQuestionType.TEXT,
    answers := AnswersPayload.text [⟨("hello"), false⟩] }

/-- A running game showing `qText`. -/
def gText : PlayGame :=
  { questions := [qText], started := true, current_question := 0, question_show := true }

/-- `rBase` with the TEXT game. -/
def rText : Redis := { rBase with games := [(("game:p"), gText)] }

/-- An ORDER question for the C8 witness. -/
def qOrder : QuizQuestion :=
  { question := ("qo"), time := 20, type := some QuizQuestionType.ORDER,
    answers := AnswersPayload.voting [⟨("X"), none, none⟩] }

/-- A running game showing `qOrder`. -/
def gOrder : PlayGame :=
  { questions := [qOrder], started := true, current_question := 0, question_show := true }

/-- `rBase` with the ORDER game. -/
def rOrder : Redis := { rBase with games := [(("game:p"), gOrder)] }

/-- C8 (as stated, refuted at a concrete input): a submission to a shown
TEXT question is NOT recorded as an answer record: the call returns with
the store completely unchanged (no answer record, no score) and emits
nothing. -/
theorem C8_counterexample :
    submit_answer_fn csConst 0 (("p")) (("pid1")) 3 rText = ⟨rText, [], Outcome.ret⟩ := by
  decide

/-- C8 (amended): submissions to questions whose type is neither ABCD nor
VOTING are not auto-scored, but they are not recorded either: for TEXT and
ORDER questions (whose validator-conforming payloads carry an `.answer`
attribute) a submission whose option lookup succeeds is silently dropped
with no state change; for a RANGE question the `answers[data_answer]`
lookup on a non-indexable payload raises an uncaught `TypeError`; for a
SLIDE question an in-range lookup yields a character without an `.answer`
attribute and raises an uncaught `AttributeError`. -/
theorem C8_amended_other_types_dropped_or_crash
    (cs : Int → Int → Int) (da : Nat) (pin pid : String) (now : Int)
    (r : Redis) (g : PlayGame) (u : String) (q : QuizQuestion) (t : Int)
    (hg : alGet r.games (("game:") ++ pin) = some g)
    (hu : alGet r.strings (("game:cqc:player:") ++ pid) = some u)
    (hshow : g.question_show = true)
    (hq : pyIdx g.questions g.current_question = some q)
    (ht : alGet r.times (("game:") ++ pin ++ (":current_time")) = some t)
    (hwf : answersMatchType q.type q.answers = true) :
    ((q.type = some QuizQuestionType.TEXT ∨ q.type = some QuizQuestionType.ORDER) →
        (∃ sel, selectedAnswerOf q.answers da = Except.ok sel) →
        submit_answer_fn cs da pin pid now r = ⟨r, [], Outcome.ret⟩) ∧
    (q.type = some QuizQuestionType.RANGE →
        submit_answer_fn cs da pin pid now r = ⟨r, [], Outcome.raised PyExc.typeError⟩) ∧
    (q.type = some QuizQuestionType.SLIDE →
        selectedAnswerOf q.answers da = Except.error PyExc.attributeError →
        submit_answer_fn cs da pin pid now r =
          ⟨r, [], Outcome.raised PyExc.attributeError⟩) := by
  refine ⟨?_, ?_, ?_⟩
  · rintro (hty | hty) ⟨sel, hsel⟩ <;>
      · have hr : answerRightOf q.type q.answers sel = RightResult.unsupported := by
          rw [hty]; rfl
        simp [submit_answer_fn, hg, hu, hshow, hq, ht, hsel, hr]
  · intro hty
    rw [hty] at hwf
    cases hp : q.answers <;> rw [hp] at hwf <;> simp [answersMatchType] at hwf
    rename_i rng
    have hsel : selectedAnswerOf q.answers da = Except.error PyExc.typeError := by
      rw [hp]; rfl
    simp [submit_answer_fn, hg, hu, hshow, hq, ht, hsel]
  · intro hty hsel
    simp [submit_answer_fn, hg, hu, hshow, hq, ht, hsel]

/-- Witness for C8: the amended theorem applied at a concrete ORDER
submission, first conjunct. -/
theorem C8_witness :
    submit_answer_fn csConst 0 (("p")) (("pid1")) 3 rOrder = ⟨rOrder, [], Outcome.ret⟩ :=
  (C8_amended_other_types_dropped_or_crash csConst 0 (("p")) (("pid1")) 3 rOrder
    gOrder (("alice")) qOrder 5
    (by decide) (by decide) (by decide) (by decide) (by decide) (by decide)).1
    (Or.inr (by decide)) ⟨("X"), by decide⟩

/-- C9: the `try/except KeyError` guard around
`question.answers[data_answer]` does not catch the `IndexError` raised by
an out-of-range list index: on the processed path, for an ABCD question
whose option list is shorter than the resolved button index, the call
neither returns a rejection nor a silent `None` — the uncaught `IndexError`
escapes `submit_answer_fn` with the store untouched. -/
theorem C9_out_of_range_index_uncaught
    (cs : Int → Int → Int) (da : Nat) (pin pid : String) (now : Int)
    (r : Redis) (g : PlayGame) (u : String) (q : QuizQuestion) (t : Int)
    (l : List ABCDQuizAnswer)
    (hg : alGet r.games (("game:") ++ pin) = some g)
    (hu : alGet r.strings (("game:cqc:player:") ++ pid) = some u)
    (hshow : g.question_show = true)
    (hq : pyIdx g.questions g.current_question = some q)
    (ht : alGet r.times (("game:") ++ pin ++ (":current_time")) = some t)
    (hans : q.answers = AnswersPayload.abcd l)
    (hoob : l.length ≤ da) :
    submit_answer_fn cs da pin pid now r = ⟨r, [], Outcome.raised PyExc.indexError⟩ := by
  have hsel : selectedAnswerOf q.answers da = Except.error PyExc.indexError := by
    rw [hans]
    simp [selectedAnswerOf, List.getElem?_eq_none hoob]
  simp [submit_answer_fn, hg, hu, hshow, hq, ht, hsel]

/-- Witness for C9: button `r` maps to index 3, but `qAbcd` has only two
options; the submission raises an uncaught IndexError. -/
theorem C9_witness :
    submit_answer_fn csConst 3 (("p")) (("pid1")) 3 rBase =
      ⟨rBase, [], Outcome.raised PyExc.indexError⟩ :=
  C9_out_of_range_index_uncaught csConst 3 (("p")) (("pid1")) 3 rBase
    gShown (("alice")) qAbcd 5 [⟨true, ("A"), none⟩, ⟨false, ("B"), none⟩]
    (by decide) (by decide) (by decide) (by decide) (by decide) (by decide) (by decide)

/-- Splitting a separator-free string yields the single whole piece. -/
theorem pySplit_eq_single {sep : Char} {l : List Char} (h : sep ∉ l) :
    pySplit sep l = [l] := by
  induction l with
  | nil => rfl
  | cons c t ih =>
    simp only [List.mem_cons, not_or] at h
    obtain ⟨h1, h2⟩ := h
    have hc : (c == sep) = false := beq_eq_false_iff_ne.mpr (Ne.symm h1)
    simp [pySplit, hc, ih h2]

/-- Splitting around the first separator occurrence peels off the
separator-free head piece. -/
theorem pySplit_head {sep : Char} {a b : List Char} (h : sep ∉ a) :
    pySplit sep (a ++ sep :: b) = a :: pySplit sep b := by
  induction a with
  | nil => simp [pySplit]
  | cons c t ih =>
    simp only [List.mem_cons, not_or] at h
    obtain ⟨h1, h2⟩ := h
    have hc : (c == sep) = false := beq_eq_false_iff_ne.mpr (Ne.symm h1)
    simp [pySplit, hc, ih h2]

/-- Every character produced by `hexDigit` is a lowercase hex digit. -/
theorem hexDigit_mem (n : Nat) : hexDigit n ∈ (("0123456789abcdef")).data := by
  unfold hexDigit
  cases h : (("0123456789abcdef")).data.get? n with
  | none => decide
  | some c => simpa using List.get?_mem h

/-- `hexDigit` never produces a colon. -/
theorem hexDigit_ne_colon (n : Nat) : hexDigit n ≠ (':') := by
  have hmem := hexDigit_mem n
  have hall : ∀ x ∈ (("0123456789abcdef")).data, x ≠ (':') := by decide
  exact hall _ hmem

/-- The hex encoding of a byte string contains no colon. -/
theorem colon_not_mem_hex (bs : List Nat) : (':') ∉ bs.flatMap byteToHexChars := by
  intro hmem
  rw [List.mem_flatMap] at hmem
  obtain ⟨b, _, hb⟩ := hmem
  simp only [byteToHexChars, List.mem_cons, List.mem_singleton] at hb
  rcases hb with h | h
  · exact hexDigit_ne_colon _ h.symm
  · rcases h with h | h
    · exact hexDigit_ne_colon _ h.symm
    · simp at h

/-- The hex encoding of a byte string has two characters per byte. -/
theorem hex_length (bs : List Nat) : (bs.flatMap byteToHexChars).length = 2 * bs.length := by
  induction bs with
  | nil => rfl
  | cons b t ih =>
    rw [List.flatMap_cons, List.length_append, ih]
    show 2 + 2 * t.length = 2 * (t.length + 1)
    omega

/-- C10: for every successful join against a game whose pin contains no
colon, the minted identity `{player_id}:{game_pin}` round-trips: the
`split(":")` of the websocket handler recovers exactly the minted player id
and the game pin, because the player id — the hex encoding of the five
bytes from `os.urandom(5)` — is a 10-character string of lowercase
hexadecimal digits and can never contain a colon. -/
theorem C10_identity_roundtrip (bytes : List Nat) (pin : String)
    (hlen : bytes.length = 5)
    (hpin : (':') ∉ pin.data) :
    pySplitColon (bytesToHexStr bytes ++ (":") ++ pin) = [bytesToHexStr bytes, pin] ∧
    (bytesToHexStr bytes).length = 10 ∧
    (∀ c ∈ (bytesToHexStr bytes).data, c ∈ (("0123456789abcdef")).data) := by
  obtain ⟨pl⟩ := pin
  refine ⟨?_, ?_, ?_⟩
  · have hdata : (bytesToHexStr bytes ++ (":") ++ String.mk pl).data
        = bytes.flatMap byteToHexChars ++ (':') :: pl := by
      simp [bytesToHexStr, String.data_append]
    unfold pySplitColon
    rw [hdata, pySplit_head (colon_not_mem_hex bytes),
      pySplit_eq_single (by simpa using hpin)]
    simp [bytesToHexStr]
  · show (bytes.flatMap byteToHexChars).length = 10
    rw [hex_length, hlen]
  · intro c hc
    have hc2 : c ∈ bytes.flatMap byteToHexChars := hc
    rw [List.mem_flatMap] at hc2
    obtain ⟨b, _, hb⟩ := hc2
    simp only [byteToHexChars, List.mem_cons, List.mem_singleton] at hb
    rcases hb with h | h
    · exact h ▸ hexDigit_mem _
    · rcases h with h | h
      · exact h ▸ hexDigit_mem _
      · simp at h

/-- Witness for C10 at a concrete byte string and pin. -/
theorem C10_witness :
    pySplitColon (bytesToHexStr [0, 1, 171, 255, 16] ++ (":") ++ ("1234")) =
      [bytesToHexStr [0, 1, 171, 255, 16], ("1234")] ∧
    (bytesToHexStr [0, 1, 171, 255, 16]).length = 10 :=
  ⟨(C10_identity_roundtrip [0, 1, 171, 255, 16] (("1234")) (by decide) (by decide)).1,
    (C10_identity_roundtrip [0, 1, 171, 255, 16] (("1234")) (by decide) (by decide)).2.1⟩

end ClassQuiz
